import Mathlib

/-!
Shallow embedding of `restfulpy/testing/documentation.py`: the
request-signature deduplication, the parameter/schema merger and the
URL-based grouping performed by `DocumentaryTestApp.document`.

Python values that flow through the documented code (parameter examples,
column defaults, query-string values) are modelled by the `Value` type;
Python's `None` is modelled by `Option`.
-/

namespace Restfulpy

/-! ### Python string primitives

Structurally recursive models of the Python string operations the source
uses (`split` on a one-character separator, `strip`, `lower`, `upper`),
so that every concrete run of the model reduces inside the kernel. -/

/-- `cs` split at every occurrence of the character `sep`
(Python `str.split(sep)` on the character list). -/
def splitCharAux (sep : Char) : List Char → List (List Char)
  | [] => [[]]
  | c :: rest =>
    match splitCharAux sep rest with
    | [] => [[c]]
    | h :: t => if c = sep then [] :: h :: t else (c :: h) :: t

/-- Python `s.split(sep)` for a one-character separator (the source only
splits on `'?'` and `'/'`). -/
def pySplit (sep : Char) (s : String) : List String :=
  (splitCharAux sep s.data).map String.mk

/-- ASCII whitespace as recognized by Python `str.strip()`. -/
def isPySpace (c : Char) : Bool :=
  c = ' ' ∨ c = '\t' ∨ c = '\n' ∨ c = '\r' ∨ c = '\x0b' ∨ c = '\x0c'

/-- Python `s.strip()` (ASCII whitespace). -/
def pyStrip (s : String) : String :=
  String.mk (((s.data.dropWhile isPySpace).reverse.dropWhile isPySpace).reverse)

/-- ASCII `str.lower` on one character. -/
def pyLowerChar (c : Char) : Char :=
  if 'A' ≤ c ∧ c ≤ 'Z' then Char.ofNat (c.toNat + 32) else c

/-- ASCII `str.upper` on one character. -/
def pyUpperChar (c : Char) : Char :=
  if 'a' ≤ c ∧ c ≤ 'z' then Char.ofNat (c.toNat - 32) else c

/-- Python `s.lower()` (ASCII). -/
def pyLower (s : String) : String := String.mk (s.data.map pyLowerChar)

/-- Python `s.upper()` (ASCII). -/
def pyUpper (s : String) : String := String.mk (s.data.map pyUpperChar)

/-- Python `s.startswith(pre)`. -/
def pyStartsWith (s pre : String) : Bool := pre.data.isPrefixOf s.data

/-- Python `s.endswith(suf)`. -/
def pyEndsWith (s suf : String) : Bool :=
  suf.data.reverse.isPrefixOf s.data.reverse

/-- A Python value as used by the documentation recorder: parameter
example values, scalar column defaults and query-string values. -/
inductive Value where
  | str (s : String)
  | int (n : Int)
  | bool (b : Bool)
deriving DecidableEq, Repr

/-- Python `str(v)` on a `Value` (`%s` formatting). -/
def Value.pyStr : Value → String
  | .str s => s
  | .int n => toString n
  | .bool b => if b then "True" else "False"

/-- The `type_` attribute of a `FormParameter` or column: either a Python
type object (`str`, `bool`, ... — rendered via `__name__`) or a plain
string tag such as `'file'` or `'attachment'`. -/
inductive TypeRef where
  | pyType (name : String)
  | strTag (s : String)
deriving DecidableEq, Repr

/-- `FormParameter.type_string`: `''` for `None`, the string itself for a
string tag, `type_.__name__` for a type object. -/
def typeString : Option TypeRef → String
  | none => ""
  | some (.pyType n) => n
  | some (.strTag s) => s

/-- `os.path.basename` on a POSIX path: everything after the last `/`. -/
def pyBasename (s : String) : String :=
  ((pySplit '/' s).getLast?).getD ""

/-- `restfulpy.testing.documentation.FormParameter`.  The constructor
defaults are `value=None, type_=str, optional=False, default=None`;
`None` for `type_`/`optional`/`default` is `Option.none` here. -/
structure FormParameter where
  name : String
  value : Option Value := none
  type_ : Option TypeRef := some (.pyType "str")
  optional : Option Bool := some false
  default : Option Value := none
deriving DecidableEq, Repr

/-- `FormParameter.value_string`. -/
def FormParameter.value_string (p : FormParameter) : String :=
  match p.value with
  | none => ""
  | some v =>
    if p.type_ = some (.strTag "file") then pyBasename v.pyStr
    else if p.type_ = some (.pyType "bool") then pyLower v.pyStr
    else v.pyStr

/-- `restfulpy.testing.documentation.RequestSignature`: role, method, url
and `tuple(query_string.keys())` (or `None`).  In the source, equality is
hash equality of the 4-tuple; we model it as structural equality of the
tuple, keeping the keys as the *ordered* sequence the Python `tuple(...)`
produces. -/
structure RequestSignature where
  role : String
  method : String
  url : String
  query_string : Option (List String)
deriving DecidableEq, Repr

/-- Building the signature in `document`:
`RequestSignature(role, method, url, tuple(query_string.keys()) if query_string else None)`.
An absent or empty (falsy) query-string dict yields `None`. -/
def mkSignature (role method url : String)
    (query_string : List (String × Value)) : RequestSignature :=
  ⟨role, method, url,
   if query_string.isEmpty then none
   else some (query_string.map Prod.fst)⟩

/-- A SQLAlchemy `ColumnDefault` as read by the recorder: `is_scalar`
and `arg`. -/
structure ColumnDefault where
  is_scalar : Bool
  arg : Value
deriving DecidableEq, Repr

/-- One schema column as consumed by the merger loop in `document`
(lines 116-145).  `json` is `c.info['json']`; `hasAttachmentInfo` is
`'attachment' in column.info`; `unreadable` is
`'unreadable' in column.info and column.info['unreadable']`;
`pythonType` is the name of `column.type.python_type`. -/
structure Column where
  json : String
  default : Option ColumnDefault
  hasAttachmentInfo : Bool
  unreadable : Bool
  pythonType : String
  nullable : Bool
deriving DecidableEq, Repr

/-- `default_ = column.default.arg if column.default.is_scalar else 'function(...)'`
when a (truthy) default is present, else `''`. -/
def resolveDefault (c : Column) : Value :=
  match c.default with
  | some d => if d.is_scalar then d.arg else .str "function(...)"
  | none => .str ""

/-- `type_ = 'attachment'` when the column info has `attachment`, else
`str` when it is unreadable, else `column.type.python_type`. -/
def resolveType (c : Column) : TypeRef :=
  if c.hasAttachmentInfo then .strTag "attachment"
  else if c.unreadable then .pyType "str"
  else .pyType c.pythonType

/-- The in-place update applied to the caller parameter matching a
column's wire name: default overwritten unconditionally, type and
optionality only backfilled when `None`. -/
def applySchema (c : Column) (p : FormParameter) : FormParameter :=
  { p with
    default := some (resolveDefault c)
    type_ := some ((p.type_).getD (resolveType c))
    optional := some ((p.optional).getD c.nullable) }

/-- `params[params.index(json_name)]` mutates the *first* parameter whose
name equals `name` (the `FormParameter.__eq__` hash compares names). -/
def updateFirst (params : List FormParameter) (name : String)
    (f : FormParameter → FormParameter) : List FormParameter :=
  match params with
  | [] => []
  | p :: rest =>
    if p.name = name then f p :: rest else p :: updateFirst rest name f

/-- The `FormParameter` synthesized when no caller parameter matches:
`FormParameter(json_name, type_=type_, optional=column.nullable, default=default_)`. -/
def synthesizeParam (c : Column) : FormParameter :=
  { name := c.json
    value := none
    type_ := some (resolveType c)
    optional := some c.nullable
    default := some (resolveDefault c) }

/-- One iteration of the merger loop: merge one column into the caller's
parameter list. -/
def mergeColumn (params : List FormParameter) (c : Column) :
    List FormParameter :=
  if params.any (fun p => p.name = c.json) then
    updateFirst params c.json (applySchema c)
  else
    params ++ [synthesizeParam c]

/-- The whole merger loop over `model.iter_json_columns(relationships=False,
include_readonly_columns=False)`, given as the resulting column list. -/
def mergeParams (params : List FormParameter) (cols : List Column) :
    List FormParameter :=
  cols.foldl mergeColumn params

/-- The response object consumed by `document`: a header mapping and the
decoded body, already split into lines
(`resp.body.decode().splitlines()`). -/
structure Resp where
  headers : List (String × String)
  bodyLines : List String
deriving DecidableEq, Repr

/-- The recorder's mutable state: `_files` (filenames already created),
`_signatures` (the set of seen signatures, modelled as a list with
membership) and the contents of the destination files. -/
structure DocState where
  files : List String
  signatures : List RequestSignature
  fs : List (String × String)
deriving DecidableEq, Repr

/-- Content of a file, `''` when never written. -/
def fsGet (fs : List (String × String)) (k : String) : String :=
  (((fs.find? (fun p => p.1 = k))).map Prod.snd).getD ""

/-- Overwrite (or create) a file with the given content. -/
def fsSet (fs : List (String × String)) (k v : String) :
    List (String × String) :=
  if fs.any (fun p => p.1 = k) then
    fs.map (fun p => if p.1 = k then (k, v) else p)
  else fs ++ [(k, v)]

/-- Append to a file (open mode `'a'`). -/
def fsAppend (fs : List (String × String)) (k v : String) :
    List (String × String) :=
  fsSet fs k (fsGet fs k ++ v)

/-- Modelled from the spec: `DOC_HEADER` lives in
`restfulpy/testing/constants.py`, which is not among the sources; the spec
says only that it is "a header block naming the documented application and
its version", filled with the application version
(`DOC_HEADER % dict(version=...)`). Its exact text is irrelevant to the
claims; we use a fixed template. -/
def DOC_HEADER (version : String) : String :=
  "Documentation, version " ++ version ++ "\n"

/-- `posixpath.join(a, b)` for the two-argument uses in the source. -/
def pathJoin (a b : String) : String :=
  if pyStartsWith b "/" then b
  else if a = "" ∨ pyEndsWith a "/" then a ++ b
  else a ++ "/" ++ b

/-- `DocumentaryTestApp._ensure_file`: reopen in append mode if already
known, else create it, write the header block
(`DOC_HEADER`, the entity heading and its underline) and record it in
`_files`. -/
def ensure_file (version : String) (st : DocState)
    (filename entity : String) : DocState :=
  if filename ∈ st.files then st
  else
    { st with
      files := st.files ++ [filename]
      fs := fsSet st.fs filename
        (DOC_HEADER version ++ "\n" ++ entity ++ "\n" ++
         String.mk (List.replicate entity.length '-') ++ "\n") }

/-- `url.split('?')[0].split('/')[1:]`. -/
def pathParts (url : String) : List String :=
  (pySplit '/' ((pySplit '?' url).headD "")).drop 1

/-- The group/filename stem and entity heading derived in `document`
(lines 104-110).  `none` models the `ValueError` Python raises unpacking
`path_parts[0:2]` when the part list is empty. -/
def groupEntity (method url : String) : Option (String × String) :=
  match pathParts url with
  | [] => none
  | [p0] =>
    let p := pyStrip p0
    let e := if p = "" then "index" else p
    some (e, e)
  | p0 :: p1 :: _ =>
    some (p0 ++ "_" ++ p1 ++ "_" ++ pyLower method, p1)

/-- The Optional column of a parameter row:
`True if method.lower() == 'put' else param.optional`, `%s`-formatted. -/
def optionalCell (method : String) (o : Option Bool) : String :=
  if pyLower method = "put" then "True"
  else match o with
    | none => "None"
    | some b => (Value.bool b).pyStr

/-- One row of the Form Parameters table. -/
def paramRow (method : String) (p : FormParameter) : String :=
  "        | " ++ p.name ++ " | " ++ optionalCell method p.optional ++
  " | " ++ typeString p.type_ ++ " | " ++
  (match p.default with | none => "" | some v => v.pyStr) ++
  " | " ++ p.value_string ++ " |\n"

/-- The Form Parameters table (written only when `params` is truthy). -/
def paramsTable (method : String) (params : List FormParameter) : String :=
  "\n    - Form Parameters:\n\n" ++
  "        | Parameter | Optional | Type | Default | Example |\n" ++
  "        | --------- | -------- | ---- | ------- | ------- |\n" ++
  String.join (params.map (paramRow method))

/-- The Query String table (written only when `query_string` is truthy). -/
def queryTable (query_string : List (String × Value)) : String :=
  "\n    - Query String:\n\n" ++
  "        | Parameter | Example |\n" ++
  "        | --------- | ------- |\n" ++
  String.join (query_string.map
    (fun kv => "        | " ++ kv.1 ++ " | " ++ kv.2.pyStr ++ " |\n"))

/-- A block of `k: v` lines indented by 12 spaces (request and response
headers). -/
def headerLines (hs : List (String × String)) : String :=
  String.join (hs.map
    (fun kv => "            " ++ kv.1 ++ ": " ++ kv.2 ++ "\n"))

/-- The full markdown entry appended for one documented request
(lines 148-181), `params` being the list after the merge. -/
def entryText (role method url : String) (resp : Resp)
    (request_headers : List (String × String))
    (params : Option (List FormParameter))
    (query_string : List (String × Value)) : String :=
  "\n- (" ++ role ++ ") **" ++ pyUpper method ++ "** `" ++ url ++ "`\n" ++
  (match params with
   | some l => if l.isEmpty then "" else paramsTable method l
   | none => "") ++
  (if query_string.isEmpty then "" else queryTable query_string) ++
  (if request_headers.isEmpty then ""
   else "\n    - Request Headers:\n\n" ++ headerLines request_headers) ++
  "\n    - Response Headers:\n\n" ++ headerLines resp.headers ++
  "\n    - Response Body:\n\n" ++
  String.join (resp.bodyLines.map (fun l => "            " ++ l ++ "\n")) ++
  "\n\n"

/-- `DocumentaryTestApp.document`.  `model` is the column list produced by
`model.iter_json_columns(relationships=False, include_readonly_columns=False)`
(`none` when no model is passed); `params` is `None` or the caller's
parameter list; `query_string` is the query dict in iteration order (an
empty list models both `None` and an empty, falsy dict).  Returns the new
recorder state, `none` for the `ValueError` on an empty path-part list. -/
def document (destination_dir version : String) (st : DocState)
    (role method url : String) (resp : Resp)
    (request_headers : List (String × String))
    (model : Option (List Column)) (params : Option (List FormParameter))
    (query_string : List (String × Value)) : Option DocState :=
  let signature := mkSignature role method url query_string
  if signature ∈ st.signatures then some st
  else
    (groupEntity method url).map (fun fe =>
      let filename := pathJoin destination_dir (fe.1 ++ ".md")
      let st₁ := ensure_file version st filename fe.2
      let params' : Option (List FormParameter) :=
        match params, model with
        | some l, some cols =>
          if l.isEmpty then params else some (mergeParams l cols)
        | _, _ => params
      let entry := entryText role method url resp request_headers
        params' query_string
      { st₁ with
        signatures := st₁.signatures ++ [signature]
        fs := fsAppend st₁.fs filename (entry ++ "\n") })

/-! ### Helper lemmas -/

theorem document_seen (dd v : String) (st : DocState)
    (role method url : String) (resp : Resp)
    (rh : List (String × String)) (mo : Option (List Column))
    (pa : Option (List FormParameter)) (qs : List (String × Value))
    (h : mkSignature role method url qs ∈ st.signatures) :
    document dd v st role method url resp rh mo pa qs = some st := by
  unfold document
  simp [h]

theorem document_mem_signatures (dd v : String) (st st' : DocState)
    (role method url : String) (resp : Resp)
    (rh : List (String × String)) (mo : Option (List Column))
    (pa : Option (List FormParameter)) (qs : List (String × Value))
    (hdoc : document dd v st role method url resp rh mo pa qs = some st') :
    mkSignature role method url qs ∈ st'.signatures := by
  unfold document at hdoc
  by_cases h : mkSignature role method url qs ∈ st.signatures
  · simp [h] at hdoc
    exact hdoc ▸ h
  · simp [h] at hdoc
    obtain ⟨fe, e, _, hst⟩ := hdoc
    rw [← hst]
    exact List.mem_append_right _ (List.mem_singleton.mpr rfl)

theorem mkSignature_keys_eq (role method url : String)
    (qs qs' : List (String × Value))
    (h : qs.map Prod.fst = qs'.map Prod.fst) :
    mkSignature role method url qs = mkSignature role method url qs' := by
  unfold mkSignature
  have he : qs.isEmpty = qs'.isEmpty := by
    cases qs <;> cases qs' <;> simp_all
  rw [h, he]

/-! ### C1 — deduplication by signature -/

/-- C1, counterexample: the signature does *not* compare the query keys
as an unordered set.  The key lists `["a", "b"]` and `["b", "a"]` are
equal as sets, yet the two signatures differ, and documenting the second
request after the first is not a no-op (the recorder state changes), so
the same (role, method, URL, query-key-set) is documented twice. -/
theorem C1_dedup_counterexample :
    (["a", "b"] : List String).toFinset = (["b", "a"] : List String).toFinset ∧
    mkSignature "admin" "GET" "/widgets"
        [("a", Value.str "1"), ("b", Value.str "2")] ≠
      mkSignature "admin" "GET" "/widgets"
        [("b", Value.str "2"), ("a", Value.str "1")] ∧
    ((document "docs" "1.0" ⟨[], [], []⟩ "admin" "GET" "/widgets" ⟨[], []⟩
        [] none none [("a", Value.str "1"), ("b", Value.str "2")]).bind
      (fun st₁ =>
        document "docs" "1.0" st₁ "admin" "GET" "/widgets" ⟨[], []⟩
          [] none none [("b", Value.str "2"), ("a", Value.str "1")])) ≠
      document "docs" "1.0" ⟨[], [], []⟩ "admin" "GET" "/widgets" ⟨[], []⟩
        [] none none [("a", Value.str "1"), ("b", Value.str "2")] := by
  refine ⟨by decide, by decide, by decide⟩

/-- C1 (amended): deduplication is by the tuple (role, method, URL,
*ordered* sequence of query-string key names).  (1) Documenting a request
whose signature is already recorded returns the state unchanged — no file
I/O, no state mutation.  (2) Signature equality depends only on the key
sequence of the query string, regardless of the query values.  (3) Hence
documenting the same (role, method, URL, query-key-sequence) twice — with
any other response, headers, model or params the second time — leaves the
state of the first documentation unchanged: exactly one output entry. -/
theorem C1_dedup :
    (∀ (dd v : String) (st : DocState) (role method url : String)
        (resp : Resp) (rh : List (String × String))
        (mo : Option (List Column)) (pa : Option (List FormParameter))
        (qs : List (String × Value)),
      mkSignature role method url qs ∈ st.signatures →
      document dd v st role method url resp rh mo pa qs = some st) ∧
    (∀ (role method url : String) (qs qs' : List (String × Value)),
      qs.map Prod.fst = qs'.map Prod.fst →
      mkSignature role method url qs = mkSignature role method url qs') ∧
    (∀ (dd v : String) (st st' : DocState) (role method url : String)
        (resp : Resp) (rh : List (String × String))
        (mo : Option (List Column)) (pa : Option (List FormParameter))
        (qs : List (String × Value)) (dd' v' : String) (resp' : Resp)
        (rh' : List (String × String)) (mo' : Option (List Column))
        (pa' : Option (List FormParameter)) (qs' : List (String × Value)),
      document dd v st role method url resp rh mo pa qs = some st' →
      qs'.map Prod.fst = qs.map Prod.fst →
      document dd' v' st' role method url resp' rh' mo' pa' qs' = some st') := by
  refine ⟨?_, mkSignature_keys_eq, ?_⟩
  · intro dd v st role method url resp rh mo pa qs h
    exact document_seen dd v st role method url resp rh mo pa qs h
  · intro dd v st st' role method url resp rh mo pa qs dd' v' resp' rh' mo'
      pa' qs' hdoc hkeys
    have hmem := document_mem_signatures dd v st st' role method url resp rh
      mo pa qs hdoc
    have hsig := mkSignature_keys_eq role method url qs' qs hkeys
    exact document_seen dd' v' st' role method url resp' rh' mo' pa' qs'
      (hsig ▸ hmem)

/-- C1, witness for the amended theorem at concrete inputs: a recorder
that has already documented `GET /widgets` for role `admin` with query
key `a` skips a second documentation with the same key (different value,
different response) without touching its state. -/
theorem C1_dedup_witness :
    document "docs" "1.0"
      ⟨["docs/widgets.md"], [⟨"admin", "GET", "/widgets", some ["a"]⟩],
       [("docs/widgets.md", "stale")]⟩
      "admin" "GET" "/widgets" ⟨[("X", "y")], ["body"]⟩ [] none none
      [("a", Value.str "7")] =
    some ⟨["docs/widgets.md"], [⟨"admin", "GET", "/widgets", some ["a"]⟩],
          [("docs/widgets.md", "stale")]⟩ :=
  C1_dedup.1 "docs" "1.0"
    ⟨["docs/widgets.md"], [⟨"admin", "GET", "/widgets", some ["a"]⟩],
     [("docs/widgets.md", "stale")]⟩
    "admin" "GET" "/widgets" ⟨[("X", "y")], ["body"]⟩ [] none none
    [("a", Value.str "7")] (by decide)

/-! ### C2 — merge precedence -/

theorem updateFirst_append (pre post : List FormParameter)
    (p : FormParameter) (name : String) (f : FormParameter → FormParameter)
    (hp : p.name = name) (hpre : ∀ q ∈ pre, q.name ≠ name) :
    updateFirst (pre ++ p :: post) name f = pre ++ f p :: post := by
  induction pre with
  | nil => simp [updateFirst, hp]
  | cons q rest ih =>
    have hq : q.name ≠ name := hpre q (List.mem_cons_self q rest)
    simp only [List.cons_append, updateFirst, if_neg hq]
    exact congrArg (q :: ·) (ih (fun r hr => hpre r (List.mem_cons_of_mem q hr)))

/-- C2: when a caller parameter's name equals a column's wire name (and it
is the first such parameter), the merger overwrites its default with the
schema-resolved default unconditionally, backfills its type and its
optionality only when they are unset (`None`), and changes nothing else —
neither the parameter's name, example value, set type or set optionality,
nor any other parameter of the list.  Concretely, the explicit parameter
`name="title", type_=None` merged with a string column `title` having
scalar default `"untitled"` yields a parameter named `title` with type
`str` and default `"untitled"`, its example value unchanged. -/
theorem C2_merge_precedence :
    (∀ (pre post : List FormParameter) (p : FormParameter) (c : Column),
      p.name = c.json →
      (∀ q ∈ pre, q.name ≠ c.json) →
      mergeColumn (pre ++ p :: post) c =
        pre ++
          { name := p.name
            value := p.value
            type_ := some ((p.type_).getD (resolveType c))
            optional := some ((p.optional).getD c.nullable)
            default := some (resolveDefault c) } :: post) ∧
    mergeParams
        [{ name := "title", value := some (Value.str "An example"),
           type_ := none, optional := some false, default := none }]
        [{ json := "title", default := some ⟨true, Value.str "untitled"⟩,
           hasAttachmentInfo := false, unreadable := false,
           pythonType := "str", nullable := false }] =
      [{ name := "title", value := some (Value.str "An example"),
         type_ := some (TypeRef.pyType "str"), optional := some false,
         default := some (Value.str "untitled") }] := by
  constructor
  · intro pre post p c hp hpre
    have hany : (pre ++ p :: post).any (fun q => q.name = c.json) = true := by
      refine List.any_eq_true.mpr ⟨p, ?_, by simp [hp]⟩
      exact List.mem_append_right _ (List.mem_cons_self p post)
    unfold mergeColumn
    rw [if_pos hany, updateFirst_append pre post p c.json _ hp hpre]
    rfl
  · decide

/-- C2, witness: the general part of the theorem applied to a concrete
two-parameter list — the unrelated parameter `other` and the explicit
value of `title` survive the merge untouched, the column's default is
taken, the already-set optionality is kept. -/
theorem C2_merge_precedence_witness :
    mergeColumn
      [{ name := "other", value := some (Value.int 3),
         type_ := some (TypeRef.pyType "int"), optional := none,
         default := none },
       { name := "title", value := some (Value.str "An example"),
         type_ := none, optional := some false, default := none }]
      { json := "title", default := some ⟨true, Value.str "untitled"⟩,
        hasAttachmentInfo := false, unreadable := false,
        pythonType := "str", nullable := true } =
    [{ name := "other", value := some (Value.int 3),
       type_ := some (TypeRef.pyType "int"), optional := none,
       default := none },
     { name := "title", value := some (Value.str "An example"),
       type_ := some (TypeRef.pyType "str"), optional := some false,
       default := some (Value.str "untitled") }] :=
  C2_merge_precedence.1
    [{ name := "other", value := some (Value.int 3),
       type_ := some (TypeRef.pyType "int"), optional := none,
       default := none }]
    []
    { name := "title", value := some (Value.str "An example"),
      type_ := none, optional := some false, default := none }
    { json := "title", default := some ⟨true, Value.str "untitled"⟩,
      hasAttachmentInfo := false, unreadable := false,
      pythonType := "str", nullable := true }
    (by decide) (by decide)

/-! ### C3 — grouping rule -/

/-- C3, counterexample: a single-segment path does *not* in general group
under that segment — the segment is first stripped of surrounding
whitespace.  `/ widgets` has the single segment `" widgets"`, which is
not empty, yet the group is `widgets`, not `" widgets"`. -/
theorem C3_grouping_counterexample :
    pathParts "/ widgets" = [" widgets"] ∧
    groupEntity "GET" "/ widgets" = some ("widgets", "widgets") ∧
    (groupEntity "GET" "/ widgets").map Prod.fst ≠ some " widgets" := by
  refine ⟨by decide, by decide, by decide⟩

/-- C3 (amended): the group name and entity heading are derived from the
path split into segments after the leading slash.  A single-segment path
groups under that segment stripped of surrounding whitespace (or `index`
when the stripped segment is empty), the entity equal to the group; a
multi-segment path groups under `segment1_segment2_<lowercased method>`
with the entity equal to the second segment.  Concretely `/widgets` gives
group and entity `widgets`; `/v1/widgets/create` with POST gives group
`v1_widgets_post` and entity `widgets`; `/` gives group `index`; and a
fresh recorder documenting `POST /v1/widgets/create` into directory
`docs` creates exactly the file `docs/v1_widgets_post.md`. -/
theorem C3_grouping :
    (∀ (method url p0 : String), pathParts url = [p0] →
      groupEntity method url =
        some (if pyStrip p0 = "" then ("index", "index")
              else (pyStrip p0, pyStrip p0))) ∧
    (∀ (method url p0 p1 : String) (rest : List String),
      pathParts url = p0 :: p1 :: rest →
      groupEntity method url =
        some (p0 ++ "_" ++ p1 ++ "_" ++ pyLower method, p1)) ∧
    groupEntity "GET" "/widgets" = some ("widgets", "widgets") ∧
    groupEntity "POST" "/v1/widgets/create" =
      some ("v1_widgets_post", "widgets") ∧
    (groupEntity "GET" "/").map Prod.fst = some "index" ∧
    (document "docs" "1.0" ⟨[], [], []⟩ "admin" "POST" "/v1/widgets/create"
        ⟨[], []⟩ [] none none []).map DocState.files =
      some ["docs/v1_widgets_post.md"] := by
  refine ⟨?_, ?_, by decide, by decide, by decide, by decide⟩
  · intro method url p0 h
    unfold groupEntity
    rw [h]
    by_cases hps : pyStrip p0 = "" <;> simp [hps]
  · intro method url p0 p1 rest h
    unfold groupEntity
    rw [h]

/-- C3, witness for the amended grouping rule at concrete inputs: the
single-segment path `/health` and the multi-segment path `/v2/items/7`
with method PUT. -/
theorem C3_grouping_witness :
    groupEntity "GET" "/health" = some ("health", "health") ∧
    groupEntity "PUT" "/v2/items/7" = some ("v2_items_put", "items") :=
  ⟨C3_grouping.1 "GET" "/health" "health" (by decide),
   C3_grouping.2.1 "PUT" "/v2/items/7" "v2" "items" ["7"] (by decide)⟩

end Restfulpy
